import Mathlib

/-!
Verification of the Crovia WEDGE signed-pointer subsystem.

This development is a shallow embedding of the repository's Python sources:

* `src/signed_pointer.py` — `SignedPointer`, `SignedPointerGenerator.generate`,
  `SignedPointerGenerator.verify`, `SignedPointerGenerator.save`;
* `src/check_v2.py` and `src/check.py` — the verdict decision.

Effects are made explicit: the capture instant (`datetime.now(timezone.utc)`)
becomes a `PyDateTime` argument, the process environment becomes a `CIEnv`
argument, the filesystem used by `save` becomes an explicit association list,
and the external signing capability (`croviapro.crypto.signer`, which is not
part of this repository) is an injected function, modelled from the spec.
Machine-level primitives used by the source (`hashlib.sha256`, Python's
`json.dumps` canonical encoding, UTF-8 encoding, `sorted` on strings) are
implemented concretely and executably below.
-/

/-! ### 32-bit helpers and SHA-256 (model of `hashlib.sha256`) -/

/-- Addition modulo 2^32, on `Nat`. -/
def add32 (a b : Nat) : Nat := (a + b) % 4294967296

/-- Right rotation of a 32-bit word given as a `Nat` below 2^32. -/
def rotr32 (n x : Nat) : Nat := x / 2 ^ n + x % 2 ^ n * 2 ^ (32 - n)

/-- SHA-256 big sigma 0. -/
def bsig0 (x : Nat) : Nat := rotr32 2 x ^^^ rotr32 13 x ^^^ rotr32 22 x

/-- SHA-256 big sigma 1. -/
def bsig1 (x : Nat) : Nat := rotr32 6 x ^^^ rotr32 11 x ^^^ rotr32 25 x

/-- SHA-256 small sigma 0. -/
def ssig0 (x : Nat) : Nat := rotr32 7 x ^^^ rotr32 18 x ^^^ x / 2 ^ 3

/-- SHA-256 small sigma 1. -/
def ssig1 (x : Nat) : Nat := rotr32 17 x ^^^ rotr32 19 x ^^^ x / 2 ^ 10

/-- SHA-256 choice function. -/
def ch32 (x y z : Nat) : Nat := (x &&& y) ^^^ ((x ^^^ 4294967295) &&& z)

/-- SHA-256 majority function. -/
def maj32 (x y z : Nat) : Nat := (x &&& y) ^^^ (x &&& z) ^^^ (y &&& z)

/-- The 64 SHA-256 round constants. -/
def sha256K : List Nat :=
  [1116352408, 1899447441, 3049323471, 3921009573, 961987163, 1508970993,
   2453635748, 2870763221, 3624381080, 310598401, 607225278, 1426881987,
   1925078388, 2162078206, 2614888103, 3248222580, 3835390401, 4022224774,
   264347078, 604807628, 770255983, 1249150122, 1555081692, 1996064986,
   2554220882, 2821834349, 2952996808, 3210313671, 3336571891, 3584528711,
   113926993, 338241895, 666307205, 773529912, 1294757372, 1396182291,
   1695183700, 1986661051, 2177026350, 2456956037, 2730485921, 2820302411,
   3259730800, 3345764771, 3516065817, 3600352804, 4094571909, 275423344,
   430227734, 506948616, 659060556, 883997877, 958139571, 1322822218,
   1537002063, 1747873779, 1955562222, 2024104815, 2227730452, 2361852424,
   2428436474, 2756734187, 3204031479, 3329325298]

/-- The SHA-256 initial hash state. -/
def sha256H0 : List Nat :=
  [1779033703, 3144134277, 1013904242, 2773480762, 1359893119, 2600822924,
   528734635, 1541459225]

/-- Group a byte list into big-endian 32-bit words. -/
def words32 : List Nat → List Nat
  | b0 :: b1 :: b2 :: b3 :: rest =>
      (b0 * 16777216 + b1 * 65536 + b2 * 256 + b3) :: words32 rest
  | _ => []

/-- The next word of the SHA-256 message schedule, from the words so far. -/
def schedWord (w : List Nat) : Nat :=
  add32 (add32 (ssig1 (w.getD (w.length - 2) 0)) (w.getD (w.length - 7) 0))
        (add32 (ssig0 (w.getD (w.length - 15) 0)) (w.getD (w.length - 16) 0))

/-- Extend the message schedule by `n` further words. -/
def schedExtend : Nat → List Nat → List Nat
  | 0, w => w
  | n + 1, w => schedExtend n (w ++ [schedWord w])

/-- One SHA-256 compression round on the 8-word working state. -/
def sha256Step (st : List Nat) (k : Nat) (w : Nat) : List Nat :=
  let a := st.getD 0 0
  let b := st.getD 1 0
  let c := st.getD 2 0
  let d := st.getD 3 0
  let e := st.getD 4 0
  let f := st.getD 5 0
  let g := st.getD 6 0
  let h := st.getD 7 0
  let t1 := add32 (add32 (add32 h (bsig1 e)) (ch32 e f g)) (add32 k w)
  let t2 := add32 (bsig0 a) (maj32 a b c)
  [add32 t1 t2, a, b, c, add32 d t1, e, f, g]

/-- Compress one 64-byte block into the hash state. -/
def compressBlock (st : List Nat) (block : List Nat) : List Nat :=
  let w := schedExtend 48 (words32 block)
  let fin := (sha256K.zip w).foldl (fun s kw => sha256Step s kw.1 kw.2) st
  List.zipWith add32 st fin

/-- Big-endian 64-bit encoding of a `Nat`. -/
def be64 (n : Nat) : List Nat :=
  [n / 2 ^ 56 % 256, n / 2 ^ 48 % 256, n / 2 ^ 40 % 256, n / 2 ^ 32 % 256,
   n / 2 ^ 24 % 256, n / 2 ^ 16 % 256, n / 2 ^ 8 % 256, n % 256]

/-- SHA-256 padding: `0x80`, zeros to 56 mod 64, then the bit length. -/
def sha256Pad (msg : List Nat) : List Nat :=
  msg ++ 128 :: List.replicate ((119 - msg.length % 64) % 64) 0 ++ be64 (8 * msg.length)

/-- Split a list into chunks of 64, with explicit fuel for structural recursion. -/
def chunk64 : Nat → List Nat → List (List Nat)
  | 0, _ => []
  | _ + 1, [] => []
  | fuel + 1, l => l.take 64 :: chunk64 fuel (l.drop 64)

/-- SHA-256 of a byte list, as a 32-byte list. -/
def sha256 (msg : List Nat) : List Nat :=
  let padded := sha256Pad msg
  let final := (chunk64 padded.length padded).foldl compressBlock sha256H0
  final.flatMap (fun w => [w / 16777216 % 256, w / 65536 % 256, w / 256 % 256, w % 256])

/-- Lowercase hexadecimal digit for a value below 16. -/
def hexDigit (n : Nat) : Char := if n < 10 then Char.ofNat (48 + n) else Char.ofNat (87 + n)

/-- Model of `hashlib.sha256(msg).hexdigest()`: lowercase hex digest string. -/
def sha256HexBytes (msg : List Nat) : String :=
  String.mk ((sha256 msg).flatMap fun b => [hexDigit (b / 16 % 16), hexDigit (b % 16)])

/-! ### UTF-8 encoding (model of `str.encode()`) -/

/-- UTF-8 encoding of one code point. -/
def utf8Bytes (c : Char) : List Nat :=
  let n := c.toNat
  if n < 128 then [n]
  else if n < 2048 then [192 + n / 64, 128 + n % 64]
  else if n < 65536 then [224 + n / 4096, 128 + n / 64 % 64, 128 + n % 64]
  else [240 + n / 262144, 128 + n / 4096 % 64, 128 + n / 64 % 64, 128 + n % 64]

/-- Model of Python `str.encode()`: UTF-8 bytes of a string. -/
def strBytes (s : String) : List Nat := s.data.flatMap utf8Bytes

/-! ### Python string ordering and `sorted` -/

/-- Lexicographic comparison of char lists by code point, as Python compares
strings. -/
def charListLe : List Char → List Char → Bool
  | [], _ => true
  | _ :: _, [] => false
  | a :: as, b :: bs =>
    if a.toNat < b.toNat then true
    else if b.toNat < a.toNat then false
    else charListLe as bs

/-- Python's string order `a <= b` (code-point lexicographic), as a `Prop`. -/
def pyLe (a b : String) : Prop := charListLe a.data b.data = true

instance : DecidableRel pyLe := fun _ _ => inferInstanceAs (Decidable (_ = true))

/-- Model of Python `sorted` on a list of strings. -/
def sortStrings (l : List String) : List String := List.insertionSort pyLe l

/-! ### Python JSON canonical encoding (model of
`json.dumps(obs, sort_keys=True, separators=(",", ":"))`) -/

/-- Four lowercase hex digits, for `\uXXXX` escapes. -/
def hex4 (n : Nat) : String :=
  String.mk [hexDigit (n / 4096 % 16), hexDigit (n / 256 % 16), hexDigit (n / 16 % 16),
    hexDigit (n % 16)]

/-- Escape one character the way `json.dumps` does with its default
`ensure_ascii=True`: printable ASCII is literal except quote and backslash,
the five short escapes are used for control characters that have one, other
characters become `\uXXXX` (a surrogate pair beyond the BMP). -/
def jsonEscapeChar (c : Char) : String :=
  if c = Char.ofNat 34 then "\\\""
  else if c = Char.ofNat 92 then "\\\\"
  else if c = Char.ofNat 8 then "\\b"
  else if c = Char.ofNat 9 then "\\t"
  else if c = Char.ofNat 10 then "\\n"
  else if c = Char.ofNat 12 then "\\f"
  else if c = Char.ofNat 13 then "\\r"
  else if 32 ≤ c.toNat ∧ c.toNat ≤ 126 then String.singleton c
  else if c.toNat < 65536 then "\\u" ++ hex4 c.toNat
  else "\\u" ++ hex4 (55296 + (c.toNat - 65536) / 1024) ++
       "\\u" ++ hex4 (56320 + (c.toNat - 65536) % 1024)

/-- A JSON string literal as `json.dumps` renders it. -/
def jsonString (s : String) : String :=
  "\"" ++ String.join (s.data.map jsonEscapeChar) ++ "\""

/-- A JSON value for an optional string: `null` when absent. -/
def jsonOptString : Option String → String
  | none => "null"
  | some s => jsonString s

/-- The canonical observation encoding of `SignedPointerGenerator`:
`json.dumps(observation, sort_keys=True, separators=(",", ":"))` for the
seven-field observation dict of `signed_pointer.py` (keys in sorted order:
commit, evidence, omissions, reason, repository, status, timestamp). -/
def observationJson (timestamp repository : String) (commit : Option String)
    (status reason : String) (evidence : List String) (omissions : Nat) : String :=
  "\x7b\"commit\":" ++ jsonOptString commit ++
  ",\"evidence\":[" ++ String.intercalate "," (evidence.map jsonString) ++
  "],\"omissions\":" ++ Nat.repr omissions ++
  ",\"reason\":" ++ jsonString reason ++
  ",\"repository\":" ++ jsonString repository ++
  ",\"status\":" ++ jsonString status ++
  ",\"timestamp\":" ++ jsonString timestamp ++ "\x7d"

/-! ### Time and environment inputs -/

/-- Zero-pad a decimal rendering on the left to width `w`. -/
def zfill (w : Nat) (s : String) : String :=
  String.mk (List.replicate (w - s.length) '0') ++ s

/-- A natural number zero-padded to width `w`, as Python's `%0wd`. -/
def padNum (w n : Nat) : String := zfill w (Nat.repr n)

/-- An aware UTC instant, the explicit stand-in for
`datetime.now(timezone.utc)` in `generate`. -/
structure PyDateTime where
  year : Nat
  month : Nat
  day : Nat
  hour : Nat
  minute : Nat
  second : Nat
  microsecond : Nat
deriving DecidableEq

/-- Model of `datetime.isoformat()` for an aware UTC instant: the
microsecond part is omitted when zero, and the offset renders as `+00:00`. -/
def PyDateTime.isoformat (t : PyDateTime) : String :=
  padNum 4 t.year ++ "-" ++ padNum 2 t.month ++ "-" ++ padNum 2 t.day ++ "T" ++
  padNum 2 t.hour ++ ":" ++ padNum 2 t.minute ++ ":" ++ padNum 2 t.second ++
  (if t.microsecond = 0 then "" else "." ++ padNum 6 t.microsecond) ++ "+00:00"

/-- Model of `strftime("%Y%m%d")`. -/
def PyDateTime.ymd8 (t : PyDateTime) : String :=
  padNum 4 t.year ++ padNum 2 t.month ++ padNum 2 t.day

/-- The environment variables `generate` reads (`None` when unset). -/
structure CIEnv where
  github_repository : Option String
  github_sha : Option String
  github_ref_name : Option String
deriving DecidableEq

/-- Python `a or b` where `a` is an optional string and `b` a string: both
`None` and the empty string fall through to `b`. -/
def pyOrStr (a : Option String) (b : String) : String :=
  match a with
  | none => b
  | some s => if s = "" then b else s

/-- Python `a or b` on two optional strings, with the same falsiness rule. -/
def pyOrOpt (a : Option String) (b : Option String) : Option String :=
  match a with
  | none => b
  | some s => if s = "" then b else some s

/-- Line 103 of `signed_pointer.py`:
`repository or os.getenv("GITHUB_REPOSITORY", "unknown/unknown")`. -/
def resolveRepository (env : CIEnv) (repository : Option String) : String :=
  pyOrStr repository (env.github_repository.getD "unknown/unknown")

/-- Line 104: `commit_sha or os.getenv("GITHUB_SHA", None)`. -/
def resolveCommit (env : CIEnv) (commit_sha : Option String) : Option String :=
  pyOrOpt commit_sha env.github_sha

/-- Line 105: `branch or os.getenv("GITHUB_REF_NAME", None)`. -/
def resolveBranch (env : CIEnv) (branch : Option String) : Option String :=
  pyOrOpt branch env.github_ref_name

/-! ### The signer capability -/

/-- Modelled from the spec: the result of the external Signer capability,
`sign(bytes) -> {signature: string, key_id: string}` (`croviapro.crypto.signer`
is not part of this repository). -/
structure SigResult where
  signature : String
  key_id : String
deriving DecidableEq

/-- The signature bundle `verify` rebuilds and hands to
`CroviaSigner.verify`; field set from lines 197-203 of `signed_pointer.py`. -/
structure CroviaSignature where
  signature : String
  key_id : String
  algorithm : String
  signed_at : String
  message_hash : String
deriving DecidableEq

/-- Modelled from the spec: the external verify capability
`CroviaSigner.verify(sig, observation_bytes, public_key) -> bool`. -/
def VerifyCap : Type := CroviaSignature → List Nat → String → Bool

/-! ### The SignedPointer data model (`signed_pointer.py`, lines 18-47) -/

/-- The `SignedPointer` dataclass, fields in source order. -/
structure SignedPointer where
  pointer_id : String
  schema : String
  version : String
  observed_at : String
  repository : String
  commit_sha : Option String
  branch : Option String
  status : String
  reason : String
  evidence_found : List String
  critical_omissions : Nat
  observation_hash : String
  signature : Option String
  signer_key_id : Option String
  registry_eligible : Bool
deriving DecidableEq

/-- First `n` characters of a string, Python `s[:n]`. -/
def strTake (n : Nat) (s : String) : String := String.mk (s.data.take n)

/-- Python `str.upper()` on ASCII content. -/
def pyUpper (s : String) : String := String.mk (s.data.map Char.toUpper)

/-- The canonical observation bytes `generate` hashes and signs
(lines 108-119 of `signed_pointer.py`): the observation dict built from the
resolved identity context and the sorted evidence list, canonically encoded,
UTF-8. -/
def SignedPointerGenerator.observationBytesOf (now : PyDateTime) (env : CIEnv)
    (status reason : String) (evidence_found : List String) (critical_omissions : Nat)
    (repository commit_sha : Option String) : List Nat :=
  strBytes (observationJson now.isoformat (resolveRepository env repository)
    (resolveCommit env commit_sha) status reason (sortStrings evidence_found)
    critical_omissions)

/-- The pointer record `generate` returns (lines 120-150), given the optional
signing result. -/
def SignedPointerGenerator.mkPointer (now : PyDateTime) (env : CIEnv)
    (status reason : String) (evidence_found : List String) (critical_omissions : Nat)
    (repository commit_sha branch : Option String) (sig : Option SigResult) :
    SignedPointer :=
  let observation_hash := sha256HexBytes (SignedPointerGenerator.observationBytesOf now env
    status reason evidence_found critical_omissions repository commit_sha)
  { pointer_id := "PTR-" ++ now.ymd8 ++ "-" ++ pyUpper (strTake 12 observation_hash)
    schema := "crovia.pointer.v1"
    version := "1.0.0"
    observed_at := now.isoformat
    repository := resolveRepository env repository
    commit_sha := resolveCommit env commit_sha
    branch := resolveBranch env branch
    status := status
    reason := reason
    evidence_found := sortStrings evidence_found
    critical_omissions := critical_omissions
    observation_hash := observation_hash
    signature := sig.map (fun r => r.signature)
    signer_key_id := sig.map (fun r => r.key_id)
    registry_eligible := (sig.map (fun r => r.signature)).isSome }

/-- `SignedPointerGenerator.generate` (lines 75-150), with the capture
instant, environment and signer capability passed explicitly. -/
def SignedPointerGenerator.generate (now : PyDateTime) (env : CIEnv)
    (signer : Option (List Nat → SigResult)) (status reason : String)
    (evidence_found : List String) (critical_omissions : Nat)
    (repository commit_sha branch : Option String) : SignedPointer :=
  SignedPointerGenerator.mkPointer now env status reason evidence_found critical_omissions
    repository commit_sha branch
    (signer.map (fun sgn => sgn (SignedPointerGenerator.observationBytesOf now env status
      reason evidence_found critical_omissions repository commit_sha)))

/-- `generate` with a fallible signer: `signer.sign` may raise, and the
exception (modelled as a `String` value) propagates out of `generate`
untranslated, exactly as an uncaught Python exception does at line 130. -/
def SignedPointerGenerator.generateE (now : PyDateTime) (env : CIEnv)
    (signer : Option (List Nat → Except String SigResult)) (status reason : String)
    (evidence_found : List String) (critical_omissions : Nat)
    (repository commit_sha branch : Option String) : Except String SignedPointer :=
  match signer with
  | none =>
    Except.ok (SignedPointerGenerator.mkPointer now env status reason evidence_found
      critical_omissions repository commit_sha branch none)
  | some sgn =>
    match sgn (SignedPointerGenerator.observationBytesOf now env status reason evidence_found
      critical_omissions repository commit_sha) with
    | Except.error e => Except.error e
    | Except.ok sig =>
      Except.ok (SignedPointerGenerator.mkPointer now env status reason evidence_found
        critical_omissions repository commit_sha branch (some sig))

/-- The observation `verify` rebuilds from the pointer's own declared fields
(lines 176-186), canonically encoded, UTF-8. -/
def rebuildObservationBytes (p : SignedPointer) : List Nat :=
  strBytes (observationJson p.observed_at p.repository p.commit_sha p.status p.reason
    p.evidence_found p.critical_omissions)

/-- `SignedPointerGenerator.verify` (lines 161-208). `cap = none` models the
`ImportError` fall-back when the crypto module is unavailable. Python's
`if not pointer.signature` rejects both `None` and the empty string. -/
def SignedPointerGenerator.verify (cap : Option VerifyCap) (p : SignedPointer)
    (public_key : String) : Bool :=
  match p.signature with
  | none => false
  | some s =>
    if s = "" then false
    else if sha256HexBytes (rebuildObservationBytes p) ≠ p.observation_hash then false
    else
      match cap with
      | none => false
      | some v =>
        v { signature := s
            key_id := pyOrStr p.signer_key_id ""
            algorithm := "ed25519"
            signed_at := p.observed_at
            message_hash := sha256HexBytes (rebuildObservationBytes p) }
          (rebuildObservationBytes p) public_key

/-! ### The pointer store (`save`) and its filesystem model -/

/-- A filesystem as an association list from path to content; the head entry
for a path is its current content, so prepending models `open(path, "w")`. -/
abbrev FS : Type := List (String × String)

/-- Read the current content of a path. -/
def fsRead : FS → String → Option String
  | [], _ => none
  | (q, c) :: rest, path => if q = path then some c else fsRead rest path

/-- Model of `os.path.join` for the one-level joins `save` performs. -/
def pathJoin (dir name : String) : String :=
  if dir = "" then name
  else if dir.data.getLast? = some '/' then dir ++ name
  else dir ++ "/" ++ name

/-- A JSON list rendered at nesting depth 1 with `indent=2`, as inside
`to_json`; `json.dumps` renders an empty list as `[]`. -/
def jsonListIndent2 (l : List String) : String :=
  if l.isEmpty then "[]"
  else "[\n    " ++ String.intercalate ",\n    " (l.map jsonString) ++ "\n  ]"

/-- `SignedPointer.to_json` (lines 49-53): `json.dumps(asdict(self), indent=2)`,
keys in dataclass field order. -/
def SignedPointer.toJson (p : SignedPointer) : String :=
  "\x7b\n  \"pointer_id\": " ++ jsonString p.pointer_id ++
  ",\n  \"schema\": " ++ jsonString p.schema ++
  ",\n  \"version\": " ++ jsonString p.version ++
  ",\n  \"observed_at\": " ++ jsonString p.observed_at ++
  ",\n  \"repository\": " ++ jsonString p.repository ++
  ",\n  \"commit_sha\": " ++ jsonOptString p.commit_sha ++
  ",\n  \"branch\": " ++ jsonOptString p.branch ++
  ",\n  \"status\": " ++ jsonString p.status ++
  ",\n  \"reason\": " ++ jsonString p.reason ++
  ",\n  \"evidence_found\": " ++ jsonListIndent2 p.evidence_found ++
  ",\n  \"critical_omissions\": " ++ Nat.repr p.critical_omissions ++
  ",\n  \"observation_hash\": " ++ jsonString p.observation_hash ++
  ",\n  \"signature\": " ++ jsonOptString p.signature ++
  ",\n  \"signer_key_id\": " ++ jsonOptString p.signer_key_id ++
  ",\n  \"registry_eligible\": " ++ (if p.registry_eligible then "true" else "false") ++
  "\n\x7d"

/-- `SignedPointerGenerator.save` (lines 152-158): write the pointer's JSON to
`output_dir/<pointer_id>.json`, returning the new filesystem and the path.
`open(path, "w")` replaces any previous content at that path. -/
def SignedPointerGenerator.save (fs : FS) (p : SignedPointer) (output_dir : String) :
    FS × String :=
  let path := pathJoin output_dir (p.pointer_id ++ ".json")
  ((path, p.toJson) :: fs, path)

/-! ### The verdict decision (`check_v2.py` lines 96-107, `check.py` lines 50-59) -/

/-- The verdict decision of `check_v2.py`: status and reason from the scan
results. -/
def decideVerdict (found_primary : List String) (critical_omissions : Nat)
    (cfic_certified : Bool) : String × String :=
  if found_primary.isEmpty then ("RED", "evidence_absent")
  else if critical_omissions > 0 then ("RED", "evidence_compromised")
  else if cfic_certified then ("GREEN", "cfic_certified")
  else ("GREEN", "evidence_recorded")

/-- The verdict decision of the legacy `check.py`, which has no certification
flag. -/
def decideVerdictV1 (found_primary : List String) (critical_omissions : Nat) :
    String × String :=
  if found_primary.isEmpty then ("RED", "evidence_absent")
  else if critical_omissions > 0 then ("RED", "evidence_compromised")
  else ("GREEN", "evidence_recorded")

/-! ### Properties of the string order and of `sortStrings` -/

theorem charListLe_total : ∀ as bs : List Char, charListLe as bs = true ∨ charListLe bs as = true
  | [], _ => Or.inl rfl
  | _ :: _, [] => Or.inr rfl
  | a :: as, b :: bs => by
    rcases Nat.lt_trichotomy a.toNat b.toNat with h | h | h
    · exact Or.inl (by simp [charListLe, h])
    · have h1 : ¬ a.toNat < b.toNat := by omega
      have h2 : ¬ b.toNat < a.toNat := by omega
      rcases charListLe_total as bs with ih | ih
      · exact Or.inl (by simp [charListLe, h1, h2, ih])
      · exact Or.inr (by simp [charListLe, h1, h2, ih])
    · exact Or.inr (by simp [charListLe, h])

theorem charListLe_trans : ∀ as bs cs : List Char, charListLe as bs = true →
    charListLe bs cs = true → charListLe as cs = true
  | [], _, _, _, _ => rfl
  | _ :: _, [], _, h1, _ => by simp [charListLe] at h1
  | _ :: _, _ :: _, [], _, h2 => by simp [charListLe] at h2
  | a :: as, b :: bs, c :: cs, h1, h2 => by
    simp only [charListLe] at h1 h2 ⊢
    by_cases hab : a.toNat < b.toNat <;> by_cases hbc : b.toNat < c.toNat
    · simp [Nat.lt_trans hab hbc]
    · by_cases hcb : c.toNat < b.toNat
      · simp [hbc, hcb] at h2
      · simp [show a.toNat < c.toNat by omega]
    · by_cases hba : b.toNat < a.toNat
      · simp [hab, hba] at h1
      · simp [show a.toNat < c.toNat by omega]
    · by_cases hba : b.toNat < a.toNat
      · simp [hab, hba] at h1
      · by_cases hcb : c.toNat < b.toNat
        · simp [hbc, hcb] at h2
        · have h1b : charListLe as bs = true := by simpa [hab, hba] using h1
          have h2b : charListLe bs cs = true := by simpa [hbc, hcb] using h2
          have hac1 : ¬ a.toNat < c.toNat := by omega
          have hac2 : ¬ c.toNat < a.toNat := by omega
          simp [hac1, hac2]
          exact charListLe_trans as bs cs h1b h2b

theorem charListLe_antisymm : ∀ as bs : List Char, charListLe as bs = true →
    charListLe bs as = true → as = bs
  | [], [], _, _ => rfl
  | [], _ :: _, _, h2 => by simp [charListLe] at h2
  | _ :: _, [], h1, _ => by simp [charListLe] at h1
  | a :: as, b :: bs, h1, h2 => by
    simp only [charListLe] at h1 h2
    rcases Nat.lt_trichotomy a.toNat b.toNat with hab | hab | hab
    · simp [hab, Nat.not_lt_of_lt hab] at h2
    · have hc : a = b := Char.ext (UInt32.ext hab)
      have h1' : charListLe as bs = true := by simpa [hab, Nat.lt_irrefl] using h1
      have h2' : charListLe bs as = true := by simpa [hab, Nat.lt_irrefl] using h2
      rw [hc, charListLe_antisymm as bs h1' h2']
    · simp [hab, Nat.not_lt_of_lt hab] at h1

instance : IsTotal String pyLe :=
  ⟨fun a b => charListLe_total a.data b.data⟩

instance : IsTrans String pyLe :=
  ⟨fun a b c h1 h2 => charListLe_trans a.data b.data c.data h1 h2⟩

instance : IsAntisymm String pyLe :=
  ⟨fun a b h1 h2 => by
    have hd : a.data = b.data := charListLe_antisymm a.data b.data h1 h2
    cases a; cases b; cases hd; rfl⟩

theorem sortStrings_perm (l : List String) : List.Perm (sortStrings l) l :=
  List.perm_insertionSort pyLe l

theorem sortStrings_sorted (l : List String) : List.Sorted pyLe (sortStrings l) :=
  List.sorted_insertionSort pyLe l

/-- Two permutations of the same multiset of strings sort identically; this is
what makes the canonical evidence normalization order-independent. -/
theorem sortStrings_congr_perm {l1 l2 : List String} (h : List.Perm l1 l2) :
    sortStrings l1 = sortStrings l2 :=
  List.eq_of_perm_of_sorted
    ((sortStrings_perm l1).trans (h.trans (sortStrings_perm l2).symm))
    (sortStrings_sorted l1) (sortStrings_sorted l2)

/-! ### Shape of the hex digest -/

/-- One compression round returns an 8-word state. -/
theorem sha256Step_length (st : List Nat) (k w : Nat) : (sha256Step st k w).length = 8 := rfl

theorem foldl_sha256Step_length (l : List (Nat × Nat)) :
    ∀ st : List Nat, st.length = 8 →
      (l.foldl (fun s kw => sha256Step s kw.1 kw.2) st).length = 8 := by
  induction l with
  | nil => intro st h; exact h
  | cons kw rest ih => intro st _; exact ih _ (sha256Step_length st kw.1 kw.2)

theorem compressBlock_length (st block : List Nat) (h : st.length = 8) :
    (compressBlock st block).length = 8 := by
  simp only [compressBlock, List.length_zipWith, h,
    foldl_sha256Step_length _ st h, Nat.min_self]

theorem foldl_compressBlock_length (blocks : List (List Nat)) :
    ∀ st : List Nat, st.length = 8 → (blocks.foldl compressBlock st).length = 8 := by
  induction blocks with
  | nil => intro st h; exact h
  | cons b rest ih => intro st h; exact ih _ (compressBlock_length st b h)

theorem flatMap4_length (l : List Nat) :
    (l.flatMap fun w => [w / 16777216 % 256, w / 65536 % 256, w / 256 % 256, w % 256]).length =
      4 * l.length := by
  induction l with
  | nil => rfl
  | cons w rest ih => simp [List.flatMap_cons, ih]; omega

/-- The raw SHA-256 digest has 32 bytes. -/
theorem sha256_length (msg : List Nat) : (sha256 msg).length = 32 := by
  have h8 : (sha256H0 : List Nat).length = 8 := rfl
  simp only [sha256, flatMap4_length, foldl_compressBlock_length _ _ h8]

theorem flatMapHex_length (l : List Nat) :
    (l.flatMap fun b => [hexDigit (b / 16 % 16), hexDigit (b % 16)]).length = 2 * l.length := by
  induction l with
  | nil => rfl
  | cons b rest ih => simp [List.flatMap_cons, ih]; omega

/-- The hex digest string has 64 characters. -/
theorem sha256HexBytes_length (msg : List Nat) : (sha256HexBytes msg).data.length = 64 := by
  simp only [sha256HexBytes, flatMapHex_length, sha256_length]

/-- Lowercase hexadecimal digit characters. -/
def isLowerHexDigit (c : Char) : Bool :=
  (48 ≤ c.toNat && c.toNat ≤ 57) || (97 ≤ c.toNat && c.toNat ≤ 102)

theorem hexDigit_lt16_hex : ∀ n < 16, isLowerHexDigit (hexDigit n) = true := by decide

theorem hexDigit_mod16_hex (n : Nat) : isLowerHexDigit (hexDigit (n % 16)) = true :=
  hexDigit_lt16_hex (n % 16) (Nat.mod_lt n (by omega))

/-- Every character of the hex digest is a lowercase hex digit. -/
theorem sha256HexBytes_hex (msg : List Nat) :
    (sha256HexBytes msg).data.all isLowerHexDigit = true := by
  simp only [sha256HexBytes]
  induction sha256 msg with
  | nil => rfl
  | cons b rest ih =>
    simp only [List.flatMap_cons, List.all_append, ih, Bool.and_true]
    simp [List.all_cons, hexDigit_mod16_hex]

/-! ### Self-consistency of `generate` -/

/-- The observation `verify` rebuilds from a pointer produced by `mkPointer`
is byte-identical to the observation `generate` hashed and signed. -/
theorem rebuild_mkPointer (now : PyDateTime) (env : CIEnv) (status reason : String)
    (evidence_found : List String) (critical_omissions : Nat)
    (repository commit_sha branch : Option String) (sig : Option SigResult) :
    rebuildObservationBytes (SignedPointerGenerator.mkPointer now env status reason
        evidence_found critical_omissions repository commit_sha branch sig) =
      SignedPointerGenerator.observationBytesOf now env status reason evidence_found
        critical_omissions repository commit_sha := rfl

/-- The stored `observation_hash` of any generated pointer equals the SHA-256
hex digest of the observation `verify` would rebuild from its fields. -/
theorem generate_hash_matches_rebuild (now : PyDateTime) (env : CIEnv)
    (signer : Option (List Nat → SigResult)) (status reason : String)
    (evidence_found : List String) (critical_omissions : Nat)
    (repository commit_sha branch : Option String) :
    (SignedPointerGenerator.generate now env signer status reason evidence_found
        critical_omissions repository commit_sha branch).observation_hash =
      sha256HexBytes (rebuildObservationBytes (SignedPointerGenerator.generate now env signer
        status reason evidence_found critical_omissions repository commit_sha branch)) := rfl

/-! ### Claim theorems -/

/-- C3: the verdict decision is this exact priority order, for every scan
result: empty found-artifact list gives RED/evidence_absent regardless of
omissions or certification; otherwise positive critical omissions give
RED/evidence_compromised even when certified; otherwise GREEN with
evidence_recorded, replaced by cfic_certified when the flag is set. The
legacy `check.py` decision coincides with the certification flag unset. -/
theorem C3_verdict_priority (found_primary : List String) (critical_omissions : Nat)
    (cfic_certified : Bool) :
    (found_primary = [] →
      decideVerdict found_primary critical_omissions cfic_certified =
        ("RED", "evidence_absent")) ∧
    (found_primary ≠ [] → 0 < critical_omissions →
      decideVerdict found_primary critical_omissions cfic_certified =
        ("RED", "evidence_compromised")) ∧
    (found_primary ≠ [] → critical_omissions = 0 → cfic_certified = true →
      decideVerdict found_primary critical_omissions cfic_certified =
        ("GREEN", "cfic_certified")) ∧
    (found_primary ≠ [] → critical_omissions = 0 → cfic_certified = false →
      decideVerdict found_primary critical_omissions cfic_certified =
        ("GREEN", "evidence_recorded")) ∧
    decideVerdictV1 found_primary critical_omissions =
      decideVerdict found_primary critical_omissions false := by
  refine ⟨?_, ?_, ?_, ?_, ?_⟩
  · intro h; subst h; rfl
  · intro h hco
    cases found_primary with
    | nil => exact absurd rfl h
    | cons a l => simp [decideVerdict, hco]
  · intro h hco hcf
    subst hco; subst hcf
    cases found_primary with
    | nil => exact absurd rfl h
    | cons a l => simp [decideVerdict]
  · intro h hco hcf
    subst hco; subst hcf
    cases found_primary with
    | nil => exact absurd rfl h
    | cons a l => simp [decideVerdict]
  · cases found_primary with
    | nil => rfl
    | cons a l => rfl

/-- Witness for C3 at concrete scan results, one per decision branch. -/
theorem C3_verdict_priority_witness :
    decideVerdict [] 5 true = ("RED", "evidence_absent") ∧
    decideVerdict ["EVIDENCE.json"] 2 true = ("RED", "evidence_compromised") ∧
    decideVerdict ["EVIDENCE.json"] 0 true = ("GREEN", "cfic_certified") ∧
    decideVerdict ["EVIDENCE.json"] 0 false = ("GREEN", "evidence_recorded") :=
  ⟨(C3_verdict_priority [] 5 true).1 rfl,
   (C3_verdict_priority ["EVIDENCE.json"] 2 true).2.1 (by decide) (by decide),
   (C3_verdict_priority ["EVIDENCE.json"] 0 true).2.2.1 (by decide) rfl rfl,
   (C3_verdict_priority ["EVIDENCE.json"] 0 false).2.2.2.1 (by decide) rfl rfl⟩

/-- C5: every generated pointer's `pointer_id` is the string `PTR-`, the
capture instant's UTC date as YYYYMMDD, a hyphen, and the first 12 characters
of `observation_hash` uppercased; the pointer's stored timestamp is that same
instant, and the hash is a 64-character lowercase-hex string, so those 12
characters are hex digits. -/
theorem C5_pointer_id_format (now : PyDateTime) (env : CIEnv)
    (signer : Option (List Nat → SigResult)) (status reason : String)
    (evidence_found : List String) (critical_omissions : Nat)
    (repository commit_sha branch : Option String) :
    (SignedPointerGenerator.generate now env signer status reason evidence_found
        critical_omissions repository commit_sha branch).pointer_id =
      "PTR-" ++ now.ymd8 ++ "-" ++
        pyUpper (strTake 12 (SignedPointerGenerator.generate now env signer status reason
          evidence_found critical_omissions repository commit_sha branch).observation_hash) ∧
    (SignedPointerGenerator.generate now env signer status reason evidence_found
        critical_omissions repository commit_sha branch).observed_at = now.isoformat ∧
    (SignedPointerGenerator.generate now env signer status reason evidence_found
        critical_omissions repository commit_sha branch).observation_hash.data.length = 64 ∧
    (SignedPointerGenerator.generate now env signer status reason evidence_found
        critical_omissions repository commit_sha branch).observation_hash.data.all
      isLowerHexDigit = true :=
  ⟨rfl, rfl, sha256HexBytes_length _, sha256HexBytes_hex _⟩

/-- C6: `registry_eligible` is true exactly when `signature` is non-null, and
a pointer generated without a signer has null signature, null signer key id
and is not registry eligible. -/
theorem C6_registry_eligible_iff_signed (now : PyDateTime) (env : CIEnv)
    (status reason : String) (evidence_found : List String) (critical_omissions : Nat)
    (repository commit_sha branch : Option String) :
    ((SignedPointerGenerator.generate now env none status reason evidence_found
        critical_omissions repository commit_sha branch).signature = none ∧
     (SignedPointerGenerator.generate now env none status reason evidence_found
        critical_omissions repository commit_sha branch).signer_key_id = none ∧
     (SignedPointerGenerator.generate now env none status reason evidence_found
        critical_omissions repository commit_sha branch).registry_eligible = false) ∧
    ∀ signer : Option (List Nat → SigResult),
      ((SignedPointerGenerator.generate now env signer status reason evidence_found
          critical_omissions repository commit_sha branch).registry_eligible = true ↔
       (SignedPointerGenerator.generate now env signer status reason evidence_found
          critical_omissions repository commit_sha branch).signature ≠ none) := by
  refine ⟨⟨rfl, rfl, rfl⟩, ?_⟩
  intro signer
  cases signer with
  | none =>
    simp [SignedPointerGenerator.generate, SignedPointerGenerator.mkPointer]
  | some sgn =>
    simp [SignedPointerGenerator.generate, SignedPointerGenerator.mkPointer]

/-- C7: a pointer whose `signature` field is null is rejected by `verify` for
every public key and every state of the signing capability, including an
absent one, so no hash recomputation or signature check can be involved. -/
theorem C7_null_signature_rejected (cap : Option VerifyCap) (p : SignedPointer)
    (public_key : String) (h : p.signature = none) :
    SignedPointerGenerator.verify cap p public_key = false := by
  simp [SignedPointerGenerator.verify, h]

/-- C10: every generated pointer, signed or unsigned, is hash-self-consistent:
hashing the observation that `verify` rebuilds from the pointer's own stored
fields yields exactly the stored `observation_hash`, so the hash-recomputation
guard in `verify` cannot fire on an unmutated generated pointer. -/
theorem C10_generate_self_consistent (now : PyDateTime) (env : CIEnv)
    (signer : Option (List Nat → SigResult)) (status reason : String)
    (evidence_found : List String) (critical_omissions : Nat)
    (repository commit_sha branch : Option String) :
    sha256HexBytes (rebuildObservationBytes (SignedPointerGenerator.generate now env signer
        status reason evidence_found critical_omissions repository commit_sha branch)) =
      (SignedPointerGenerator.generate now env signer status reason evidence_found
        critical_omissions repository commit_sha branch).observation_hash ∧
    ¬ (sha256HexBytes (rebuildObservationBytes (SignedPointerGenerator.generate now env signer
        status reason evidence_found critical_omissions repository commit_sha branch)) ≠
      (SignedPointerGenerator.generate now env signer status reason evidence_found
        critical_omissions repository commit_sha branch).observation_hash) :=
  ⟨rfl, fun h => h rfl⟩

/-- C4: the canonical encoding is a fixed function of the observation field
values (so two encodings of the same values are byte-identical), and both the
encoding and the resulting `observation_hash` are invariant under any
permutation of the `evidence_found` input list, because the evidence is
sorted before encoding. -/
theorem C4_canonical_determinism (now : PyDateTime) (env : CIEnv)
    (signer : Option (List Nat → SigResult)) (status reason : String)
    (critical_omissions : Nat) (repository commit_sha branch : Option String)
    (ev1 ev2 : List String) (h : List.Perm ev1 ev2) :
    SignedPointerGenerator.observationBytesOf now env status reason ev1
        critical_omissions repository commit_sha =
      SignedPointerGenerator.observationBytesOf now env status reason ev2
        critical_omissions repository commit_sha ∧
    (SignedPointerGenerator.generate now env signer status reason ev1
        critical_omissions repository commit_sha branch).observation_hash =
      (SignedPointerGenerator.generate now env signer status reason ev2
        critical_omissions repository commit_sha branch).observation_hash := by
  have hs : sortStrings ev1 = sortStrings ev2 := sortStrings_congr_perm h
  have hbytes : SignedPointerGenerator.observationBytesOf now env status reason ev1
      critical_omissions repository commit_sha =
      SignedPointerGenerator.observationBytesOf now env status reason ev2
        critical_omissions repository commit_sha := by
    unfold SignedPointerGenerator.observationBytesOf
    rw [hs]
  refine ⟨hbytes, ?_⟩
  show sha256HexBytes (SignedPointerGenerator.observationBytesOf now env status reason ev1
      critical_omissions repository commit_sha) =
    sha256HexBytes (SignedPointerGenerator.observationBytesOf now env status reason ev2
      critical_omissions repository commit_sha)
  exact congrArg sha256HexBytes hbytes

/-! ### Concrete fixtures for witnesses and counterexamples -/

/-- A fixed capture instant (2024-03-15 12:30:45.123456 UTC). -/
def dt0 : PyDateTime := ⟨2024, 3, 15, 12, 30, 45, 123456⟩

/-- A fixed capture instant with zero microseconds (2024-03-15 09:05:07 UTC). -/
def dt1 : PyDateTime := ⟨2024, 3, 15, 9, 5, 7, 0⟩

/-- An empty CI environment: no GITHUB_* variables set. -/
def env0 : CIEnv := ⟨none, none, none⟩

/-- A concrete deterministic signer model: the signature string commits to the
signed bytes. -/
def mockSign (b : List Nat) : SigResult :=
  { signature := "SIG:" ++ sha256HexBytes b, key_id := "K1" }

/-- The verify capability matching `mockSign`, accepting exactly its
signatures under the public key `PK`. -/
def mockVerifyCap : VerifyCap :=
  fun sig b pk => (sig.signature == "SIG:" ++ sha256HexBytes b) && (pk == "PK")

/-- A concrete unsigned generated pointer. -/
def unsignedPointer : SignedPointer :=
  SignedPointerGenerator.generate dt0 env0 none "GREEN" "evidence_recorded"
    ["EVIDENCE.json"] 0 (some "test/repo") (some "abc123") none

/-- A concrete signed generated pointer. -/
def signedPointer0 : SignedPointer :=
  SignedPointerGenerator.generate dt0 env0 (some mockSign) "GREEN" "evidence_recorded"
    ["EVIDENCE.json"] 0 (some "test/repo") (some "abc123") (some "main")

/-- Witness for C4: swapping the two evidence entries changes neither the
canonical bytes nor the hash. -/
theorem C4_canonical_determinism_witness :
    SignedPointerGenerator.observationBytesOf dt0 env0 "GREEN" "evidence_recorded"
        ["trust_bundle.v1.json", "EVIDENCE.json"] 0 (some "test/repo") (some "abc123") =
      SignedPointerGenerator.observationBytesOf dt0 env0 "GREEN" "evidence_recorded"
        ["EVIDENCE.json", "trust_bundle.v1.json"] 0 (some "test/repo") (some "abc123") ∧
    (SignedPointerGenerator.generate dt0 env0 none "GREEN" "evidence_recorded"
        ["trust_bundle.v1.json", "EVIDENCE.json"] 0 (some "test/repo") (some "abc123")
        none).observation_hash =
      (SignedPointerGenerator.generate dt0 env0 none "GREEN" "evidence_recorded"
        ["EVIDENCE.json", "trust_bundle.v1.json"] 0 (some "test/repo") (some "abc123")
        none).observation_hash :=
  C4_canonical_determinism dt0 env0 none "GREEN" "evidence_recorded" 0 (some "test/repo")
    (some "abc123") none ["trust_bundle.v1.json", "EVIDENCE.json"]
    ["EVIDENCE.json", "trust_bundle.v1.json"] (by decide)

/-- Witness for C7: the concrete unsigned pointer is rejected even with a
working verify capability. -/
theorem C7_null_signature_rejected_witness :
    SignedPointerGenerator.verify (some mockVerifyCap) unsignedPointer "PK" = false :=
  C7_null_signature_rejected (some mockVerifyCap) unsignedPointer "PK" rfl

/-- A single-field mutation of `signedPointer0` in a field `verify` never
reads: the branch. -/
def tamperedBranchPointer : SignedPointer := { signedPointer0 with branch := some "tampered" }

set_option maxRecDepth 40000 in
/-- Counterexample to C1 as stated: `branch` is a field of the pointer, yet
mutating it while keeping `observation_hash` leaves `verify` returning true,
because `verify` rebuilds the observation without the branch. -/
theorem C1_tamper_detection_counterexample :
    tamperedBranchPointer.observation_hash = signedPointer0.observation_hash ∧
    tamperedBranchPointer ≠ signedPointer0 ∧
    SignedPointerGenerator.verify (some mockVerifyCap) tamperedBranchPointer "PK" = true := by
  refine ⟨rfl, ?_, ?_⟩
  · intro h
    exact absurd (congrArg SignedPointer.branch h) (by decide)
  · decide

/-- C1 amended: mutating a generated signed pointer is detected by `verify`
exactly through the hash binding: any pointer claiming the generated
`observation_hash` whose rebuilt observation (from the seven hash-bound
fields observed_at, repository, commit_sha, status, reason, evidence_found,
critical_omissions) has a different SHA-256 digest is rejected, for every
capability state and public key; fields outside the rebuilt observation
(branch, pointer_id, schema, version, registry_eligible) cannot be detected:
they never change the verification result. -/
theorem C1_tamper_detection_amended (now : PyDateTime) (env : CIEnv)
    (status reason : String) (evidence_found : List String) (critical_omissions : Nat)
    (repository commit_sha branch : Option String) (sign : List Nat → SigResult)
    (cap : Option VerifyCap) (public_key : String) :
    (∀ p' : SignedPointer,
      p'.observation_hash = (SignedPointerGenerator.generate now env (some sign) status reason
        evidence_found critical_omissions repository commit_sha branch).observation_hash →
      sha256HexBytes (rebuildObservationBytes p') ≠
        sha256HexBytes (rebuildObservationBytes (SignedPointerGenerator.generate now env
          (some sign) status reason evidence_found critical_omissions repository commit_sha
          branch)) →
      SignedPointerGenerator.verify cap p' public_key = false) ∧
    (∀ (q : SignedPointer) (b : Option String) (pid sch ver : String) (re : Bool),
      SignedPointerGenerator.verify cap { q with branch := b, pointer_id := pid, schema := sch, version := ver, registry_eligible := re } public_key = SignedPointerGenerator.verify cap q public_key) := by
  constructor
  · intro p' hstore hdiff
    have hgen : sha256HexBytes (rebuildObservationBytes (SignedPointerGenerator.generate now env
        (some sign) status reason evidence_found critical_omissions repository commit_sha
        branch)) =
        (SignedPointerGenerator.generate now env (some sign) status reason evidence_found
          critical_omissions repository commit_sha branch).observation_hash :=
      (generate_hash_matches_rebuild now env (some sign) status reason evidence_found
        critical_omissions repository commit_sha branch).symm
    have hcomp : sha256HexBytes (rebuildObservationBytes p') ≠ p'.observation_hash := by
      rw [hstore, ← hgen]; exact hdiff
    cases hsig : p'.signature with
    | none => simp [SignedPointerGenerator.verify, hsig]
    | some s =>
      by_cases hs : s = ""
      · simp [SignedPointerGenerator.verify, hsig, hs]
      · simp [SignedPointerGenerator.verify, hsig, hs, hcomp]
  · intro q b pid sch ver re
    cases q; rfl

/-- The generated signed pointer with only its status flipped to RED. -/
def mutatedStatusPointer : SignedPointer := { signedPointer0 with status := "RED" }

set_option maxRecDepth 40000 in
/-- Witness for amended C1: flipping status GREEN to RED on the concrete
signed pointer changes the rebuilt digest, and `verify` rejects it. -/
theorem C1_tamper_detection_amended_witness :
    SignedPointerGenerator.verify (some mockVerifyCap) mutatedStatusPointer "PK" = false :=
  (C1_tamper_detection_amended dt0 env0 "GREEN" "evidence_recorded" ["EVIDENCE.json"] 0
    (some "test/repo") (some "abc123") (some "main") mockSign (some mockVerifyCap) "PK").1
    mutatedStatusPointer rfl (by decide)

/-- A string starting with the tag `SIG:` is never empty. -/
theorem sigTag_append_ne_empty (s : String) : ("SIG:" ++ s) ≠ "" := by
  intro h
  have hlen := congrArg (fun t => t.data.length) h
  simp [String.data_append] at hlen

/-- C2: the sign/verify round trip. For every observation input and every
signer whose signatures are non-empty and whose verify capability accepts the
signer's own signature bundles under the public key (however the bundle
metadata is filled in), `verify` accepts the pointer `generate` produced with
that signer. -/
theorem C2_sign_verify_roundtrip (now : PyDateTime) (env : CIEnv)
    (status reason : String) (evidence_found : List String) (critical_omissions : Nat)
    (repository commit_sha branch : Option String) (sign : List Nat → SigResult)
    (cap : VerifyCap) (public_key : String)
    (hne : ∀ b : List Nat, (sign b).signature ≠ "")
    (hacc : ∀ (b : List Nat) (sa mh : String),
      cap { signature := (sign b).signature, key_id := pyOrStr (some ((sign b).key_id)) "",
            algorithm := "ed25519", signed_at := sa, message_hash := mh } b public_key = true) :
    SignedPointerGenerator.verify (some cap)
      (SignedPointerGenerator.generate now env (some sign) status reason evidence_found
        critical_omissions repository commit_sha branch) public_key = true := by
  show (if (sign (SignedPointerGenerator.observationBytesOf now env status reason evidence_found
      critical_omissions repository commit_sha)).signature = "" then false
    else if sha256HexBytes (rebuildObservationBytes (SignedPointerGenerator.generate now env
        (some sign) status reason evidence_found critical_omissions repository commit_sha
        branch)) ≠
      (SignedPointerGenerator.generate now env (some sign) status reason evidence_found
        critical_omissions repository commit_sha branch).observation_hash then false
    else
      cap { signature := (sign (SignedPointerGenerator.observationBytesOf now env status reason
              evidence_found critical_omissions repository commit_sha)).signature,
            key_id := pyOrStr (SignedPointerGenerator.generate now env (some sign) status reason
              evidence_found critical_omissions repository commit_sha branch).signer_key_id "",
            algorithm := "ed25519",
            signed_at := (SignedPointerGenerator.generate now env (some sign) status reason
              evidence_found critical_omissions repository commit_sha branch).observed_at,
            message_hash := sha256HexBytes (rebuildObservationBytes
              (SignedPointerGenerator.generate now env (some sign) status reason evidence_found
                critical_omissions repository commit_sha branch)) }
        (rebuildObservationBytes (SignedPointerGenerator.generate now env (some sign) status
          reason evidence_found critical_omissions repository commit_sha branch))
        public_key) = true
  rw [if_neg (hne _)]
  rw [if_neg (fun hcontra => hcontra (generate_hash_matches_rebuild now env (some sign) status
    reason evidence_found critical_omissions repository commit_sha branch).symm)]
  exact hacc _ _ _

set_option maxRecDepth 40000 in
/-- Witness for C2: the concrete mock signer round-trips through `verify`
under its public key. -/
theorem C2_sign_verify_roundtrip_witness :
    SignedPointerGenerator.verify (some mockVerifyCap)
      (SignedPointerGenerator.generate dt0 env0 (some mockSign) "GREEN" "evidence_recorded"
        ["EVIDENCE.json"] 0 (some "test/repo") (some "abc123") (some "main")) "PK" = true :=
  C2_sign_verify_roundtrip dt0 env0 "GREEN" "evidence_recorded" ["EVIDENCE.json"] 0
    (some "test/repo") (some "abc123") (some "main") mockSign mockVerifyCap "PK"
    (fun b => sigTag_append_ne_empty (sha256HexBytes b))
    (fun b sa mh => by simp [mockVerifyCap, mockSign, pyOrStr])

/-- A signer whose signing capability raises. -/
def failingSigner : List Nat → Except String SigResult :=
  fun _ => Except.error "RuntimeError: hsm unavailable"

/-- Another failing signer, raising a different exception value. -/
def failingSigner2 : List Nat → Except String SigResult :=
  fun _ => Except.error "ValueError: bad key"

/-- Counterexample to C8 as stated: the code defines no `SigningFailed`
error anywhere; when the signer raises, `generate` propagates the signer's
own exception value verbatim (here the raw `ValueError`), not a distinct
`SigningFailed` error. -/
theorem C8_signing_failure_counterexample :
    SignedPointerGenerator.generateE dt0 env0 (some failingSigner2) "RED"
      "evidence_compromised" ["EVIDENCE.json"] 1 (some "test/repo") (some "abc123") none =
    Except.error "ValueError: bad key" := rfl

/-- C8 amended: when the signer is supplied and its sign invocation fails,
the failure propagates out of `generate` unchanged, as the signer's own
exception; `generate` never returns a pointer, signed or unsigned, in that
case. -/
theorem C8_signing_failure_propagates (now : PyDateTime) (env : CIEnv)
    (status reason : String) (evidence_found : List String) (critical_omissions : Nat)
    (repository commit_sha branch : Option String)
    (sgn : List Nat → Except String SigResult) (e : String)
    (h : sgn (SignedPointerGenerator.observationBytesOf now env status reason evidence_found
      critical_omissions repository commit_sha) = Except.error e) :
    SignedPointerGenerator.generateE now env (some sgn) status reason evidence_found
        critical_omissions repository commit_sha branch = Except.error e ∧
    ∀ p : SignedPointer,
      SignedPointerGenerator.generateE now env (some sgn) status reason evidence_found
        critical_omissions repository commit_sha branch ≠ Except.ok p := by
  have h1 : SignedPointerGenerator.generateE now env (some sgn) status reason evidence_found
      critical_omissions repository commit_sha branch = Except.error e := by
    simp [SignedPointerGenerator.generateE, h]
  refine ⟨h1, fun p hp => ?_⟩
  rw [h1] at hp
  exact Except.noConfusion hp

/-- Witness for amended C8 at a concrete failing signer. -/
theorem C8_signing_failure_propagates_witness :
    SignedPointerGenerator.generateE dt0 env0 (some failingSigner) "GREEN"
      "evidence_recorded" ["EVIDENCE.json"] 0 (some "test/repo") (some "abc123") none =
    Except.error "RuntimeError: hsm unavailable" :=
  (C8_signing_failure_propagates dt0 env0 "GREEN" "evidence_recorded" ["EVIDENCE.json"] 0
    (some "test/repo") (some "abc123") none failingSigner "RuntimeError: hsm unavailable"
    rfl).1

/-! ### C9 fixtures: two honestly generated pointers that share a pointer id -/

/-- Generated at `dt1` with branch `main`; the branch is not part of the
hashed observation, so the sibling below gets the same `pointer_id`. -/
def savedPointerA : SignedPointer :=
  SignedPointerGenerator.generate dt1 env0 none "GREEN" "evidence_recorded" ["EVIDENCE.json"]
    0 (some "test/repo") none (some "main")

/-- Generated from the same observation inputs at the same instant but on
branch `dev`. -/
def savedPointerB : SignedPointer :=
  SignedPointerGenerator.generate dt1 env0 none "GREEN" "evidence_recorded" ["EVIDENCE.json"]
    0 (some "test/repo") none (some "dev")

/-- The store contents after saving `savedPointerA` into an empty store. -/
def fsAfterA : FS := (SignedPointerGenerator.save [] savedPointerA ".crovia").1

/-- The store contents after then saving `savedPointerB`. -/
def fsAfterB : FS := (SignedPointerGenerator.save fsAfterA savedPointerB ".crovia").1

/-- The path `savedPointerA` was saved at. -/
def savedPathA : String := (SignedPointerGenerator.save [] savedPointerA ".crovia").2

set_option maxRecDepth 40000 in
/-- Counterexample to C9 as stated: two honestly generated pointers differing
only in branch share a `pointer_id`, and the second `save` replaces the first
file's content, so the previously saved content is not left intact. -/
theorem C9_save_overwrites_counterexample :
    savedPointerB.pointer_id = savedPointerA.pointer_id ∧
    SignedPointer.toJson savedPointerB ≠ SignedPointer.toJson savedPointerA ∧
    (SignedPointerGenerator.save fsAfterA savedPointerB ".crovia").2 = savedPathA ∧
    fsRead fsAfterA savedPathA = some (SignedPointer.toJson savedPointerA) ∧
    fsRead fsAfterB savedPathA = some (SignedPointer.toJson savedPointerB) := by
  refine ⟨rfl, ?_, rfl, ?_, ?_⟩
  · decide
  · decide
  · decide

/-- C9 amended: each `save` writes only to the path derived from the saved
pointer's own `pointer_id`, so every other path keeps its previous content;
but a later save of a pointer with the same `pointer_id` (for example the
same observation on a different branch) replaces that one file's content. -/
theorem C9_save_writes_own_path (fs : FS) (p : SignedPointer) (output_dir : String)
    (other : String) (h : other ≠ (SignedPointerGenerator.save fs p output_dir).2) :
    fsRead (SignedPointerGenerator.save fs p output_dir).1 other = fsRead fs other ∧
    (SignedPointerGenerator.save fs p output_dir).2 =
      pathJoin output_dir (p.pointer_id ++ ".json") := by
  constructor
  · show fsRead ((pathJoin output_dir (p.pointer_id ++ ".json"), p.toJson) :: fs) other =
      fsRead fs other
    simp only [fsRead]
    rw [if_neg (fun hc => h hc.symm)]
  · rfl

set_option maxRecDepth 40000 in
/-- Witness for amended C9: saving the concrete pointer leaves an unrelated
path unchanged. -/
theorem C9_save_writes_own_path_witness :
    fsRead (SignedPointerGenerator.save [] savedPointerA ".crovia").1 ".crovia/other.json" =
      fsRead ([] : FS) ".crovia/other.json" :=
  (C9_save_writes_own_path [] savedPointerA ".crovia" ".crovia/other.json" (by decide)).1
